import Mathlib

/-
  Shallow embedding of the GOLDBERG 300 sterilizer engine
  (src/packages/core-sterilizer/index.ts) and of the simulation IO backend
  (src/packages/io-simulation/index.ts).

  Modelling conventions:
  * JS numbers are modelled as exact rationals (ℚ); every number reached in
    the modelled paths is finite, so Number.isFinite is constantly true in
    this model and the finiteness disjuncts of validateSensors drop out.
  * The engine closure (the local variables of createSterilizerEngine) and
    the SterilizerState object are packed into one record, EngineState;
    each engine method becomes a pure function on it.  Methods that call
    now() or Date.now() take the current time t : ℚ as an argument.
  * io.readSensors is an input of tick (a SensorReading value);
    io.writeActuators only mutates the IO backend object, which is not part
    of the engine state, so the actuator writes issued by tick are dropped
    here; the backend itself is modelled separately (SimPhysicalState,
    simWriteActuators) for the write-side claims.
  * throw is modelled with Except: startCycle returns Except String
    EngineState, and a thrown error leaves the caller with the old state.
-/

set_option linter.all false

/-- Cycle phase, mirroring the Phase union type of core-sterilizer. -/
inductive Phase where
  | IDLE
  | PREHEAT
  | PREVACUUM
  | HEAT_UP
  | STERILIZATION
  | DRYING
  | DEPRESSURIZE
  | COOLING
  | COMPLETE
  | ERROR
  deriving DecidableEq, Repr

/-- Chamber sensor mirror. -/
structure ChamberState where
  pressureMPa : ℚ
  temperatureC : ℚ
  deriving DecidableEq, Repr

/-- Steam generator sensor mirror. -/
structure GeneratorState where
  pressureMPa : ℚ
  temperatureC : ℚ
  waterLevelPercent : ℚ
  deriving DecidableEq, Repr

/-- Jacket sensor mirror. -/
structure JacketState where
  pressureMPa : ℚ
  deriving DecidableEq, Repr

/-- Door sensor mirror.  The source field named open is a Lean keyword and
is rendered here as isOpen. -/
structure DoorState where
  locked : Bool
  isOpen : Bool
  deriving DecidableEq, Repr

/-- Sterilization program template. -/
structure ProgramConfig where
  id : String
  name : String
  setTempC : ℚ
  sterilizationTimeSec : ℚ
  preVacuumCount : ℕ
  dryingTimeSec : ℚ
  deriving DecidableEq, Repr

/-- Partial per-program override patch. -/
structure ProgramOverride where
  setTempC : Option ℚ := none
  sterilizationTimeSec : Option ℚ := none
  preVacuumCount : Option ℕ := none
  dryingTimeSec : Option ℚ := none
  deriving DecidableEq, Repr

/-- Cycle runtime, mirroring CycleRuntime (including the doubled Sec in the
source field name totalElapsedSecSec). -/
structure CycleRuntime where
  active : Bool
  currentPhase : Phase
  phaseElapsedSec : ℚ
  phaseTotalSec : ℚ
  totalElapsedSecSec : ℚ
  currentProgram : Option ProgramConfig
  deriving DecidableEq, Repr

/-- Closed error taxonomy. -/
inductive ErrorCode where
  | HEATING_TIMEOUT
  | OVERPRESSURE
  | OVERTEMP
  | NO_WATER
  | VACUUM_FAIL
  | SENSOR_FAILURE
  | DOOR_OPEN
  | POWER_ERROR
  | USER_STOP
  deriving DecidableEq, Repr

/-- One recorded error event. -/
structure ErrorEvent where
  id : String
  code : ErrorCode
  message : String
  timestamp : ℚ
  deriving DecidableEq, Repr

/-- Terminal result of a cycle. -/
inductive CycleResult where
  | success
  | error
  | aborted
  deriving DecidableEq, Repr

/-- Audit record of one terminated cycle. -/
structure CycleSummary where
  id : String
  startedAt : ℚ
  endedAt : ℚ
  durationSec : ℚ
  programId : String
  programName : String
  result : CycleResult
  success : Bool
  primaryErrorCode : Option ErrorCode
  maxTemperatureC : ℚ
  maxPressureMPa : ℚ
  errors : List ErrorEvent
  deriving DecidableEq, Repr

/-- Vacuum test verdict. -/
inductive VTVerdict where
  | PASS
  | FAIL
  deriving DecidableEq, Repr

/-- Recorded vacuum test outcome. -/
structure VacuumTestResult where
  id : String
  startedAt : ℚ
  endedAt : ℚ
  result : VTVerdict
  leakRateMPaPerMin : ℚ
  deriving DecidableEq, Repr

/-- Vacuum test sub-phase. -/
inductive VTPhase where
  | IDLE
  | STABILIZE
  | TEST
  deriving DecidableEq, Repr

/-- Vacuum test runtime state. -/
structure VacuumTestState where
  active : Bool
  phase : VTPhase
  elapsedSec : ℚ
  stabilizationTimeSec : ℚ
  testTimeSec : ℚ
  startedAt : Option ℚ
  basePressureMPa : Option ℚ
  result : Option VTVerdict := none
  leakRateMPaPerMin : Option ℚ := none
  deriving DecidableEq, Repr

/-- The four additive calibration offsets. -/
structure CalibrationOffsets where
  chamberTempOffsetC : ℚ
  chamberPressureOffset : ℚ
  generatorTempOffsetC : ℚ
  generatorPressureOffset : ℚ
  deriving DecidableEq, Repr

/-- Power failure flag plus optional message. -/
structure PowerFailureState where
  pending : Bool
  message : Option String := none
  deriving DecidableEq, Repr

/-- The authoritative SterilizerState record.  The JS Record of program
overrides is modelled as an association list. -/
structure SterilizerState where
  chamber : ChamberState
  generator : GeneratorState
  jacket : JacketState
  door : DoorState
  cycle : CycleRuntime
  errors : List ErrorEvent
  warnings : List ErrorEvent
  errorHistory : List ErrorEvent
  lastCompletedCycles : List CycleSummary
  vacuumTest : VacuumTestState
  lastVacuumTests : List VacuumTestResult
  programOverrides : List (String × ProgramOverride)
  calibrationOffsets : CalibrationOffsets
  powerFailure : PowerFailureState
  deriving DecidableEq, Repr

/-- The SterilizerState together with the closure-local variables of
createSterilizerEngine (lastTickMs is omitted: tick takes dtMs directly). -/
structure EngineState where
  state : SterilizerState
  currentProgram : Option ProgramConfig
  completedPrevacuums : ℕ
  currentCycleStart : ℚ
  maxTemp : ℚ
  maxPressure : ℚ
  sterilizationTempLowSec : ℚ
  currentVacuumStartPressure : ℚ
  pausedCycle : Option CycleRuntime
  deriving DecidableEq, Repr

/-- One atomic snapshot returned by io.readSensors. -/
structure SensorReading where
  chamberPressureMPa : ℚ
  chamberTemperatureC : ℚ
  generatorPressureMPa : ℚ
  generatorTemperatureC : ℚ
  jacketPressureMPa : ℚ
  waterLevelPercent : ℚ
  doorOpen : Bool
  doorLocked : Bool
  deriving DecidableEq, Repr

/-- PHASE_DEFAULTS table. -/
def phaseDefaults : Phase → ℚ
  | .IDLE => 0
  | .PREHEAT => 60
  | .PREVACUUM => 20
  | .HEAT_UP => 90
  | .STERILIZATION => 300
  | .DRYING => 60
  | .DEPRESSURIZE => 20
  | .COOLING => 40
  | .COMPLETE => 0
  | .ERROR => 0

/-- JS numeric truthiness fallback: x || y is y when x is 0, else x. -/
def jsOr (x y : ℚ) : ℚ := if x = 0 then y else x

/-- JS fallback for a number-or-null value: null and 0 are both falsy. -/
def jsOrOpt (x : Option ℚ) (y : ℚ) : ℚ :=
  match x with
  | some v => if v = 0 then y else v
  | none => y

/-- Rendering of a rational for the template-string ids of the source (the
exact shape of an id is never observable by the spec claims). -/
def ratStr (q : ℚ) : String := toString q.num ++ "/" ++ toString q.den

/-- recordCycle: appends one CycleSummary (most recent first, capped at 50)
unless state.cycle.currentProgram is null. -/
def recordCycle (t : ℚ) (result : CycleResult) (primaryErrorCode : Option ErrorCode)
    (es : EngineState) : EngineState :=
  match es.state.cycle.currentProgram with
  | none => es
  | some prog =>
    let endedAt := t
    let durationSec := max 0 ((endedAt - es.currentCycleStart) / 1000)
    let summary : CycleSummary :=
      { id := "c_" ++ toString (es.state.lastCompletedCycles.length + 1) ++ "_" ++ ratStr t
        startedAt := es.currentCycleStart
        endedAt := endedAt
        durationSec := durationSec
        programId := prog.id
        programName := prog.name
        result := result
        success := result = CycleResult.success
        primaryErrorCode := primaryErrorCode
        maxTemperatureC := es.maxTemp
        maxPressureMPa := es.maxPressure
        errors := es.state.errors }
    { es with state :=
      { es.state with lastCompletedCycles := (summary :: es.state.lastCompletedCycles).take 50 } }

/-- pushError: no-op while already in ERROR phase; otherwise appends the
event to errors and (bounded) errorHistory, forces ERROR, deactivates the
cycle, and records a CycleSummary with result error. -/
def pushError (t : ℚ) (code : ErrorCode) (message : String) (es : EngineState) : EngineState :=
  if es.state.cycle.currentPhase = Phase.ERROR then es
  else
    let evt : ErrorEvent :=
      { id := "e_" ++ toString (es.state.errors.length + 1) ++ "_" ++ ratStr t
        code := code
        message := message
        timestamp := t }
    let es := { es with state :=
      { es.state with
        errors := es.state.errors ++ [evt]
        errorHistory := (evt :: es.state.errorHistory).take 100
        cycle := { es.state.cycle with currentPhase := Phase.ERROR, active := false } } }
    recordCycle t CycleResult.error (some code) es

/-- syncSensors: copies one sensor snapshot into the state, applying the
additive calibration offsets to the chamber and generator channels. -/
def syncSensors (sensors : SensorReading) (es : EngineState) : EngineState :=
  let cOff := es.state.calibrationOffsets
  { es with state :=
    { es.state with
      chamber :=
        { pressureMPa := sensors.chamberPressureMPa + cOff.chamberPressureOffset
          temperatureC := sensors.chamberTemperatureC + cOff.chamberTempOffsetC }
      generator :=
        { pressureMPa := sensors.generatorPressureMPa + cOff.generatorPressureOffset
          temperatureC := sensors.generatorTemperatureC + cOff.generatorTempOffsetC
          waterLevelPercent := sensors.waterLevelPercent }
      jacket := { pressureMPa := sensors.jacketPressureMPa }
      door := { locked := sensors.doorLocked, isOpen := sensors.doorOpen } } }

/-- The invalid-readings test of validateSensors.  In the rational model all
values are finite, so the Number.isFinite disjuncts of the source are
constantly false and drop out; the range checks are verbatim.  Note that the
source checks only the chamber and generator channels: jacket pressure and
the door flags are not validated. -/
def sensorsInvalid (st : SterilizerState) : Bool :=
  decide (st.generator.waterLevelPercent < 0) ||
  decide (st.generator.waterLevelPercent > 110) ||
  decide (st.chamber.pressureMPa < -0.2) ||
  decide (st.chamber.pressureMPa > 0.5) ||
  decide (st.generator.pressureMPa < -0.2) ||
  decide (st.generator.pressureMPa > 0.5) ||
  decide (st.chamber.temperatureC < -10) ||
  decide (st.chamber.temperatureC > 200) ||
  decide (st.generator.temperatureC < -10) ||
  decide (st.generator.temperatureC > 200)

/-- validateSensors: raises SENSOR_FAILURE when the readings are invalid. -/
def validateSensors (t : ℚ) (es : EngineState) : EngineState :=
  if sensorsInvalid es.state then
    pushError t ErrorCode.SENSOR_FAILURE "Некорректные показания датчиков" es
  else es

/-- Step 2 of tick: advance the phase and total timers and the peak
temperature and pressure accumulators while the cycle is active. -/
def timerStep (dtSec : ℚ) (es : EngineState) : EngineState :=
  if es.state.cycle.active then
    { es with
      maxTemp := max es.maxTemp es.state.chamber.temperatureC
      maxPressure := max es.maxPressure es.state.chamber.pressureMPa
      state := { es.state with cycle :=
        { es.state.cycle with
          phaseElapsedSec := es.state.cycle.phaseElapsedSec + dtSec
          totalElapsedSecSec := es.state.cycle.totalElapsedSecSec + dtSec } } }
  else es

/-- Step 2a of tick: the vacuum test sub-machine.  Runs only while the test
is active and the cycle is not; the branches that merely command actuators
leave the engine state unchanged and collapse to the identity here. -/
def vacuumStep (t dtSec : ℚ) (es : EngineState) : EngineState :=
  if es.state.vacuumTest.active && !es.state.cycle.active then
    let vt0 := es.state.vacuumTest
    let vt := { vt0 with elapsedSec := vt0.elapsedSec + dtSec }
    let es := { es with state := { es.state with vacuumTest := vt } }
    if vt.phase = VTPhase.STABILIZE ∧ vt.elapsedSec ≥ vt.stabilizationTimeSec then
      { es with
        currentVacuumStartPressure := es.state.chamber.pressureMPa
        state := { es.state with vacuumTest :=
          { vt with
            phase := VTPhase.TEST
            elapsedSec := 0
            basePressureMPa := some es.state.chamber.pressureMPa } } }
    else if vt.phase = VTPhase.TEST ∧ vt.elapsedSec ≥ vt.testTimeSec then
      let durationMin := vt.testTimeSec / 60
      let leakRate :=
        if durationMin > 0 then
          max 0 ((es.state.chamber.pressureMPa - es.currentVacuumStartPressure) / durationMin)
        else 0
      let pass := leakRate ≤ 0.005
      let result : VacuumTestResult :=
        { id := "vt_" ++ ratStr t
          startedAt := jsOrOpt vt.startedAt t
          endedAt := t
          result := if pass then VTVerdict.PASS else VTVerdict.FAIL
          leakRateMPaPerMin := leakRate }
      { es with state :=
        { es.state with
          lastVacuumTests := (result :: es.state.lastVacuumTests).take 20
          vacuumTest :=
            { active := false
              phase := VTPhase.IDLE
              elapsedSec := 0
              stabilizationTimeSec := vt.stabilizationTimeSec
              testTimeSec := vt.testTimeSec
              startedAt := none
              basePressureMPa := none
              result := some result.result
              leakRateMPaPerMin := some leakRate } } }
    else es
  else es

/-- setPhase helper of tick: enters a phase, resetting the phase timer and
budget (JS falsy fallback to the phase default) and counting PREVACUUM
re-entries. -/
def setPhase (phase : Phase) (totalSec : ℚ) (es : EngineState) : EngineState :=
  let es := { es with state := { es.state with cycle :=
    { es.state.cycle with
      currentPhase := phase
      phaseElapsedSec := 0
      phaseTotalSec := jsOr totalSec (phaseDefaults phase) } } }
  if phase = Phase.PREVACUUM then
    { es with completedPrevacuums := es.completedPrevacuums + 1 }
  else es

/-- Step 3 of tick: the cycle state machine, guarded by cycle.active and the
closure variable currentProgram.  Actuator writes are IO side effects and do
not appear in the engine state. -/
def phaseStep (t dtSec : ℚ) (es : EngineState) : EngineState :=
  match es.currentProgram with
  | none => es
  | some program =>
    if !es.state.cycle.active then es
    else
      match es.state.cycle.currentPhase with
      | Phase.PREHEAT =>
        if es.state.generator.temperatureC ≥ max 100 (program.setTempC - 5) ∨
            es.state.cycle.phaseElapsedSec > phaseDefaults Phase.PREHEAT then
          setPhase Phase.PREVACUUM (phaseDefaults Phase.PREVACUUM)
            { es with completedPrevacuums := 0 }
        else es
      | Phase.PREVACUUM =>
        if es.state.cycle.phaseElapsedSec > es.state.cycle.phaseTotalSec then
          if es.completedPrevacuums ≥ program.preVacuumCount then
            setPhase Phase.HEAT_UP (phaseDefaults Phase.HEAT_UP) es
          else
            setPhase Phase.PREVACUUM (phaseDefaults Phase.PREVACUUM) es
        else es
      | Phase.HEAT_UP =>
        if es.state.chamber.temperatureC ≥ program.setTempC - 2 ∨
            es.state.cycle.phaseElapsedSec > es.state.cycle.phaseTotalSec then
          setPhase Phase.STERILIZATION program.sterilizationTimeSec es
        else es
      | Phase.STERILIZATION =>
        let es :=
          if es.state.chamber.temperatureC < program.setTempC - 3 then
            { es with sterilizationTempLowSec := es.sterilizationTempLowSec + dtSec }
          else
            { es with sterilizationTempLowSec := 0 }
        if es.state.cycle.phaseElapsedSec ≥ program.sterilizationTimeSec then
          { setPhase Phase.DRYING (jsOr program.dryingTimeSec 30) es with
              sterilizationTempLowSec := 0 }
        else es
      | Phase.DRYING =>
        if es.state.cycle.phaseElapsedSec ≥ jsOr program.dryingTimeSec 30 then
          setPhase Phase.DEPRESSURIZE (phaseDefaults Phase.DEPRESSURIZE) es
        else es
      | Phase.DEPRESSURIZE =>
        if es.state.chamber.pressureMPa ≤ 0.02 ∨ es.state.cycle.phaseElapsedSec > 20 then
          setPhase Phase.COOLING 20 es
        else es
      | Phase.COOLING =>
        if es.state.chamber.temperatureC ≤ 60 ∨ es.state.cycle.phaseElapsedSec > 40 then
          let es := setPhase Phase.COMPLETE 0 es
          let es := { es with state := { es.state with cycle :=
            { es.state.cycle with active := false } } }
          recordCycle t CycleResult.success none es
        else es
      | _ => es

/-- The program-scoped alarm checks of step 4 of tick (the body of the
if (currentProgram) block). -/
def alarmProgramChecks (t : ℚ) (p : ProgramConfig) (es : EngineState) : EngineState :=
  let es :=
    if es.state.chamber.temperatureC > p.setTempC + 8 then
      pushError t ErrorCode.OVERTEMP "Превышение температуры в камере" es
    else es
  let es :=
    if es.state.cycle.currentPhase = Phase.HEAT_UP ∧
        es.state.cycle.phaseElapsedSec > es.state.cycle.phaseTotalSec + 30 ∧
        es.state.chamber.temperatureC < p.setTempC - 5 then
      pushError t ErrorCode.HEATING_TIMEOUT "Не достигнута температура стерилизации" es
    else es
  let es :=
    if es.state.cycle.currentPhase = Phase.PREVACUUM ∧
        es.state.cycle.phaseElapsedSec > es.state.cycle.phaseTotalSec + 5 ∧
        es.state.chamber.pressureMPa > 0.05 then
      pushError t ErrorCode.VACUUM_FAIL "Не удалось достичь вакуума" es
    else es
  let es :=
    if es.state.cycle.currentPhase = Phase.DRYING ∧
        es.state.cycle.phaseElapsedSec > es.state.cycle.phaseTotalSec + 60 then
      pushError t ErrorCode.HEATING_TIMEOUT "Сушка превысила допустимое время" es
    else es
  if es.state.cycle.currentPhase = Phase.STERILIZATION ∧
      es.sterilizationTempLowSec > 30 then
    pushError t ErrorCode.HEATING_TIMEOUT "Температура стерилизации держится ниже нормы" es
  else es

/-- Step 4 of tick: alarm evaluation, skipped entirely while already in
ERROR.  Each check sees the state as mutated by the previous ones (a push
sets ERROR, so later pushes are silenced by the guard in pushError). -/
def alarmStep (t : ℚ) (es : EngineState) : EngineState :=
  if es.state.cycle.currentPhase = Phase.ERROR then es
  else
    let es :=
      if es.state.chamber.pressureMPa > 0.35 then
        pushError t ErrorCode.OVERPRESSURE "Избыточное давление в камере" es
      else es
    let es :=
      if es.state.generator.waterLevelPercent < 5 then
        pushError t ErrorCode.NO_WATER "Недостаточно воды в парогенераторе" es
      else es
    let es :=
      match es.currentProgram with
      | none => es
      | some p => alarmProgramChecks t p es
    if es.state.cycle.active && es.state.door.isOpen then
      pushError t ErrorCode.DOOR_OPEN "Дверь открыта во время цикла" es
    else es

/-- One engine tick: sensors in, validation, timers, vacuum test machine,
cycle machine, then alarms. -/
def tick (t dtMs : ℚ) (sensors : SensorReading) (es : EngineState) : EngineState :=
  let es := syncSensors sensors es
  let es := validateSensors t es
  let dtSec := dtMs / 1000
  let es := timerStep dtSec es
  let es := vacuumStep t dtSec es
  let es := phaseStep t dtSec es
  alarmStep t es

/-- Spread-merge of a base program with an override patch. -/
def applyOverride (base : ProgramConfig) (o : ProgramOverride) : ProgramConfig :=
  { base with
    setTempC := o.setTempC.getD base.setTempC
    sterilizationTimeSec := o.sterilizationTimeSec.getD base.sterilizationTimeSec
    preVacuumCount := o.preVacuumCount.getD base.preVacuumCount
    dryingTimeSec := o.dryingTimeSec.getD base.dryingTimeSec }

/-- startCycle: resolves the program (throwing on an unknown id, modelled as
Except.error), fail-fast on an unlocked or open door via pushError, else
clears per-cycle accumulators and enters PREHEAT. -/
def startCycle (t : ℚ) (programs : List ProgramConfig) (programId : String)
    (es : EngineState) : Except String EngineState :=
  match programs.find? (fun p => p.id == programId) with
  | none => Except.error ("Program not found: " ++ programId)
  | some base =>
    let override := (es.state.programOverrides.lookup programId).getD {}
    let program := applyOverride base override
    if !es.state.door.locked || es.state.door.isOpen then
      Except.ok (pushError t ErrorCode.DOOR_OPEN "Дверь открыта или не заблокирована" es)
    else
      Except.ok
        { es with
          currentProgram := some program
          completedPrevacuums := 0
          currentCycleStart := t
          maxTemp := 0
          maxPressure := 0
          state :=
            { es.state with
              errors := []
              powerFailure := { pending := false }
              cycle :=
                { active := true
                  currentPhase := Phase.PREHEAT
                  phaseElapsedSec := 0
                  phaseTotalSec := 0
                  totalElapsedSecSec := 0
                  currentProgram := some program } } }

/-- The gateway calling convention for startCycle: a thrown program-not-found
error leaves the caller holding the previous state. -/
def runStart (t : ℚ) (programs : List ProgramConfig) (programId : String)
    (es : EngineState) : EngineState :=
  match startCycle t programs programId es with
  | Except.ok es' => es'
  | Except.error _ => es

/-- stopCycle: unconditionally deactivates, forces DEPRESSURIZE and records
an aborted summary with USER_STOP. -/
def stopCycle (t : ℚ) (es : EngineState) : EngineState :=
  let es := { es with state := { es.state with cycle :=
    { es.state.cycle with
      active := false
      currentPhase := Phase.DEPRESSURIZE
      phaseElapsedSec := 0 } } }
  recordCycle t CycleResult.aborted (some ErrorCode.USER_STOP) es

/-- startVacuumTest: no-op while a cycle is active, else seeds the
STABILIZE sub-phase. -/
def startVacuumTest (t : ℚ) (stabilizationTimeSec testTimeSec : ℚ)
    (es : EngineState) : EngineState :=
  if es.state.cycle.active then es
  else
    { es with state := { es.state with vacuumTest :=
      { active := true
        phase := VTPhase.STABILIZE
        elapsedSec := 0
        stabilizationTimeSec := stabilizationTimeSec
        testTimeSec := testTimeSec
        startedAt := some t
        basePressureMPa := none } } }

/-- powerFail: only while a cycle is active; snapshots the runtime into the
paused slot, deactivates, sets the pending flag. -/
def powerFail (message : Option String) (es : EngineState) : EngineState :=
  if !es.state.cycle.active then es
  else
    { es with
      pausedCycle := some es.state.cycle
      state :=
        { es.state with
          cycle := { es.state.cycle with active := false }
          powerFailure := { pending := true, message := message } } }

/-- continueAfterPower: restores the paused runtime verbatim and
reactivates it; a no-op unless pending with a paused runtime present. -/
def continueAfterPower (es : EngineState) : EngineState :=
  match es.state.powerFailure.pending, es.pausedCycle with
  | true, some pc =>
    { es with
      pausedCycle := none
      state :=
        { es.state with
          cycle := { pc with active := true }
          powerFailure := { pending := false } } }
  | _, _ => es

/-- abortAfterPower: no-op unless pending; else clears pending, discards the
paused runtime, records an aborted POWER_ERROR summary and forces IDLE. -/
def abortAfterPower (t : ℚ) (es : EngineState) : EngineState :=
  if !es.state.powerFailure.pending then es
  else
    let es :=
      { es with
        pausedCycle := none
        state := { es.state with powerFailure := { pending := false } } }
    let es := recordCycle t CycleResult.aborted (some ErrorCode.POWER_ERROR) es
    { es with state := { es.state with cycle :=
      { es.state.cycle with
        active := false
        currentPhase := Phase.IDLE
        currentProgram := none } } }

/-- resetErrors: clears the active error list (history untouched) and, when
in ERROR, returns the phase to IDLE with the cycle inactive. -/
def resetErrors (es : EngineState) : EngineState :=
  let es := { es with state := { es.state with errors := [] } }
  if es.state.cycle.currentPhase = Phase.ERROR then
    { es with state := { es.state with cycle :=
      { es.state.cycle with currentPhase := Phase.IDLE, active := false } } }
  else es

/-- The initial engine state of createSterilizerEngine. -/
def initialState : EngineState :=
  { state :=
    { chamber := { pressureMPa := 0, temperatureC := 20 }
      generator := { pressureMPa := 0, temperatureC := 20, waterLevelPercent := 100 }
      jacket := { pressureMPa := 0 }
      door := { locked := false, isOpen := true }
      cycle :=
        { active := false
          currentPhase := Phase.IDLE
          phaseElapsedSec := 0
          phaseTotalSec := 0
          totalElapsedSecSec := 0
          currentProgram := none }
      errors := []
      warnings := []
      errorHistory := []
      lastCompletedCycles := []
      vacuumTest :=
        { active := false
          phase := VTPhase.IDLE
          elapsedSec := 0
          stabilizationTimeSec := 300
          testTimeSec := 300
          startedAt := none
          basePressureMPa := none }
      lastVacuumTests := []
      programOverrides := []
      calibrationOffsets :=
        { chamberTempOffsetC := 0
          chamberPressureOffset := 0
          generatorTempOffsetC := 0
          generatorPressureOffset := 0 }
      powerFailure := { pending := false } }
    currentProgram := none
    completedPrevacuums := 0
    currentCycleStart := 0
    maxTemp := 0
    maxPressure := 0
    sterilizationTempLowSec := 0
    currentVacuumStartPressure := 0
    pausedCycle := none }

/-- Internal physical state of the simulation IO backend. -/
structure SimPhysicalState where
  chamberPressureMPa : ℚ
  chamberTemperatureC : ℚ
  generatorPressureMPa : ℚ
  generatorTemperatureC : ℚ
  jacketPressureMPa : ℚ
  waterLevelPercent : ℚ
  doorOpen : Bool
  doorLocked : Bool
  heaterOn : Bool
  steamInletValveOpen : Bool
  steamExhaustValveOpen : Bool
  vacuumPumpOn : Bool
  waterPumpOn : Bool
  deriving DecidableEq, Repr

/-- An actuator command: every field is set-if-present. -/
structure ActuatorCmd where
  heaterOn : Option Bool := none
  steamInletValveOpen : Option Bool := none
  steamExhaustValveOpen : Option Bool := none
  vacuumPumpOn : Option Bool := none
  waterPumpOn : Option Bool := none
  doorLockOn : Option Bool := none
  deriving DecidableEq, Repr

/-- writeActuators of the simulation backend: each present boolean is
copied; a present doorLockOn b sets doorLocked to b and doorOpen to
not b AND doorOpen (so locking forces the door closed, unlocking leaves the
door flag as it was). -/
def simWriteActuators (cmd : ActuatorCmd) (p : SimPhysicalState) : SimPhysicalState :=
  let p := match cmd.heaterOn with
    | some b => { p with heaterOn := b }
    | none => p
  let p := match cmd.steamInletValveOpen with
    | some b => { p with steamInletValveOpen := b }
    | none => p
  let p := match cmd.steamExhaustValveOpen with
    | some b => { p with steamExhaustValveOpen := b }
    | none => p
  let p := match cmd.vacuumPumpOn with
    | some b => { p with vacuumPumpOn := b }
    | none => p
  let p := match cmd.waterPumpOn with
    | some b => { p with waterPumpOn := b }
    | none => p
  match cmd.doorLockOn with
  | some b => { p with doorLocked := b, doorOpen := !b && p.doorOpen }
  | none => p

/-- The event pushError constructs (when not silenced by the ERROR guard). -/
def mkErrorEvent (t : ℚ) (code : ErrorCode) (message : String) (es : EngineState) : ErrorEvent :=
  { id := "e_" ++ toString (es.state.errors.length + 1) ++ "_" ++ ratStr t
    code := code
    message := message
    timestamp := t }

/-! Concrete fixtures for witnesses and counterexamples. -/

/-- The 134C test program of the package test suite. -/
def progA : ProgramConfig :=
  { id := "p1"
    name := "Test 134"
    setTempC := 134
    sterilizationTimeSec := 300
    preVacuumCount := 1
    dryingTimeSec := 60 }

/-- A nominal sensor snapshot: door closed and locked, all values in range. -/
def nominalSensors : SensorReading :=
  { chamberPressureMPa := 0
    chamberTemperatureC := 20
    generatorPressureMPa := 0
    generatorTemperatureC := 20
    jacketPressureMPa := 0
    waterLevelPercent := 100
    doorOpen := false
    doorLocked := true }

/-- Initial state after one nominal tick: the door mirror is now closed and
locked, no errors, no active cycle. -/
def esReady : EngineState := tick 0 1000 nominalSensors initialState

/-- esReady after a successful startCycle of progA: an active PREHEAT cycle. -/
def esRun : EngineState := runStart 1 [progA] "p1" esReady

/-- A concrete simulation backend state with the door open and unlocked. -/
def simEx : SimPhysicalState :=
  { chamberPressureMPa := 0
    chamberTemperatureC := 20
    generatorPressureMPa := 0
    generatorTemperatureC := 20
    jacketPressureMPa := 0
    waterLevelPercent := 100
    doorOpen := true
    doorLocked := false
    heaterOn := false
    steamInletValveOpen := false
    steamExhaustValveOpen := false
    vacuumPumpOn := false
    waterPumpOn := false }

/-- esReady with a vacuum test started (STABILIZE sub-phase, active). -/
def esVac : EngineState := startVacuumTest 1 300 300 esReady

/-- esVac after startCycle of progA with the door closed and locked: the
cycle starts even though the vacuum test is still active. -/
def esBoth : EngineState := runStart 2 [progA] "p1" esVac

/-- A reachable ERROR-phase state with the door open and unlocked: one tick
with an out-of-range water level reading (200) and the door reported open. -/
def esErrDoorOpen : EngineState :=
  tick 0 1000
    { nominalSensors with doorOpen := true, doorLocked := false, waterLevelPercent := 200 }
    initialState

/-- A reachable ERROR-phase state with the door closed and locked: one tick
with an out-of-range water level reading (200), door closed and locked. -/
def esErrLocked : EngineState :=
  tick 0 1000 { nominalSensors with waterLevelPercent := 200 } initialState

/-- esRun stopped twice in a row. -/
def esStopTwice : EngineState := stopCycle 3 (stopCycle 2 esRun)

/-- esRun stopped: no active cycle, phase forced to DEPRESSURIZE, but the
closure variable currentProgram still holds progA. -/
def esStopped : EngineState := stopCycle 2 esRun

/-- esStopped after one tick whose chamber temperature reading is 143 C
(setTemp 134 + 9): no cycle is active, yet OVERTEMP fires. -/
def esOvertemp : EngineState :=
  tick 3 1000 { nominalSensors with chamberTemperatureC := 143 } esStopped

/-- A state with progA loaded as the closure program and a hot chamber
(143 C) while no cycle is active. -/
def esHotIdle : EngineState :=
  { initialState with
    currentProgram := some progA
    state := { initialState.state with
      chamber := { pressureMPa := 0, temperatureC := 143 } } }

/-- A preexisting OVERTEMP event, used to instantiate the no-program
conjunct of the OVERTEMP guard theorem. -/
def evtOT : ErrorEvent :=
  { id := "e_old", code := ErrorCode.OVERTEMP, message := "old", timestamp := 0 }

/-- A program-free state that already carries evtOT in its error list. -/
def esNoProg : EngineState :=
  { initialState with state := { initialState.state with errors := [evtOT] } }

/-- One tick whose jacket pressure reading is 1 MPa (far outside the
[-0.2, 0.5] MPa band), everything else nominal. -/
def esJacket : EngineState :=
  tick 0 1000 { nominalSensors with jacketPressureMPa := 1 } initialState

/-- A state with a vacuum test in the TEST sub-phase, baseline pressure
0.01 MPa, 290 s elapsed of a 300 s test. -/
def esVacTest : EngineState :=
  { initialState with
    currentVacuumStartPressure := 1 / 100
    state := { initialState.state with
      vacuumTest :=
        { active := true
          phase := VTPhase.TEST
          elapsedSec := 290
          stabilizationTimeSec := 300
          testTimeSec := 300
          startedAt := some 0
          basePressureMPa := some (1 / 100) } } }

/-- A sensor snapshot with chamber pressure 0.02 MPa. -/
def sensorsVT : SensorReading := { nominalSensors with chamberPressureMPa := 1 / 50 }

/-- An active cycle in the COOLING phase with the chamber already at 50 C,
so the completion guard (temperature at most 60) holds on the next step. -/
def esCooling : EngineState :=
  { initialState with
    currentProgram := some progA
    state := { initialState.state with
      chamber := { pressureMPa := 0, temperatureC := 50 }
      cycle :=
        { active := true
          currentPhase := Phase.COOLING
          phaseElapsedSec := 10
          phaseTotalSec := 20
          totalElapsedSecSec := 700
          currentProgram := some progA } } }

/-! Helper lemmas: which state fields each operation preserves. -/

theorem recordCycle_errors (t : ℚ) (r : CycleResult) (pc : Option ErrorCode)
    (es : EngineState) : (recordCycle t r pc es).state.errors = es.state.errors := by
  unfold recordCycle
  cases es.state.cycle.currentProgram <;> rfl

theorem recordCycle_errorHistory (t : ℚ) (r : CycleResult) (pc : Option ErrorCode)
    (es : EngineState) : (recordCycle t r pc es).state.errorHistory = es.state.errorHistory := by
  unfold recordCycle
  cases es.state.cycle.currentProgram <;> rfl

theorem recordCycle_cycle (t : ℚ) (r : CycleResult) (pc : Option ErrorCode)
    (es : EngineState) : (recordCycle t r pc es).state.cycle = es.state.cycle := by
  unfold recordCycle
  cases es.state.cycle.currentProgram <;> rfl

theorem recordCycle_vacuumTest (t : ℚ) (r : CycleResult) (pc : Option ErrorCode)
    (es : EngineState) : (recordCycle t r pc es).state.vacuumTest = es.state.vacuumTest := by
  unfold recordCycle
  cases es.state.cycle.currentProgram <;> rfl

theorem recordCycle_lastVacuumTests (t : ℚ) (r : CycleResult) (pc : Option ErrorCode)
    (es : EngineState) : (recordCycle t r pc es).state.lastVacuumTests = es.state.lastVacuumTests := by
  unfold recordCycle
  cases es.state.cycle.currentProgram <;> rfl

theorem recordCycle_currentProgram (t : ℚ) (r : CycleResult) (pc : Option ErrorCode)
    (es : EngineState) : (recordCycle t r pc es).currentProgram = es.currentProgram := by
  unfold recordCycle
  cases es.state.cycle.currentProgram <;> rfl

theorem recordCycle_chamber (t : ℚ) (r : CycleResult) (pc : Option ErrorCode)
    (es : EngineState) : (recordCycle t r pc es).state.chamber = es.state.chamber := by
  unfold recordCycle
  cases es.state.cycle.currentProgram <;> rfl

theorem recordCycle_cvsp (t : ℚ) (r : CycleResult) (pc : Option ErrorCode)
    (es : EngineState) :
    (recordCycle t r pc es).currentVacuumStartPressure = es.currentVacuumStartPressure := by
  unfold recordCycle
  cases es.state.cycle.currentProgram <;> rfl

theorem pushError_errors_append (t : ℚ) (c : ErrorCode) (m : String) (es : EngineState)
    (h : es.state.cycle.currentPhase ≠ Phase.ERROR) :
    (pushError t c m es).state.errors = es.state.errors ++ [mkErrorEvent t c m es] := by
  unfold pushError
  rw [if_neg h, recordCycle_errors]
  rfl

theorem pushError_errorHistory_cons (t : ℚ) (c : ErrorCode) (m : String) (es : EngineState)
    (h : es.state.cycle.currentPhase ≠ Phase.ERROR) :
    (pushError t c m es).state.errorHistory =
      (mkErrorEvent t c m es :: es.state.errorHistory).take 100 := by
  unfold pushError
  rw [if_neg h, recordCycle_errorHistory]
  rfl

theorem pushError_noop (t : ℚ) (c : ErrorCode) (m : String) (es : EngineState)
    (h : es.state.cycle.currentPhase = Phase.ERROR) :
    pushError t c m es = es := by
  unfold pushError
  rw [if_pos h]

theorem pushError_phase_error (t : ℚ) (c : ErrorCode) (m : String) (es : EngineState)
    (h : es.state.cycle.currentPhase ≠ Phase.ERROR) :
    (pushError t c m es).state.cycle.currentPhase = Phase.ERROR := by
  unfold pushError
  rw [if_neg h, recordCycle_cycle]

theorem pushError_active_false (t : ℚ) (c : ErrorCode) (m : String) (es : EngineState)
    (h : es.state.cycle.currentPhase ≠ Phase.ERROR) :
    (pushError t c m es).state.cycle.active = false := by
  unfold pushError
  rw [if_neg h, recordCycle_cycle]

theorem pushError_errors_mono (t : ℚ) (c : ErrorCode) (m : String) (es : EngineState)
    (e : ErrorEvent) (h : e ∈ es.state.errors) : e ∈ (pushError t c m es).state.errors := by
  by_cases hp : es.state.cycle.currentPhase = Phase.ERROR
  · rw [pushError_noop _ _ _ _ hp]; exact h
  · rw [pushError_errors_append _ _ _ _ hp]; exact List.mem_append_left _ h

theorem pushError_mem_inv (t : ℚ) (c : ErrorCode) (m : String) (es : EngineState)
    (e : ErrorEvent) (h : e ∈ (pushError t c m es).state.errors) :
    e ∈ es.state.errors ∨ e.code = c := by
  by_cases hp : es.state.cycle.currentPhase = Phase.ERROR
  · rw [pushError_noop _ _ _ _ hp] at h; exact Or.inl h
  · rw [pushError_errors_append _ _ _ _ hp] at h
    rcases List.mem_append.mp h with h' | h'
    · exact Or.inl h'
    · right
      have : e = mkErrorEvent t c m es := by simpa using h'
      rw [this]; rfl

theorem pushError_vacuumTest (t : ℚ) (c : ErrorCode) (m : String) (es : EngineState) :
    (pushError t c m es).state.vacuumTest = es.state.vacuumTest := by
  unfold pushError
  split
  · rfl
  · rw [recordCycle_vacuumTest]

theorem pushError_lastVacuumTests (t : ℚ) (c : ErrorCode) (m : String) (es : EngineState) :
    (pushError t c m es).state.lastVacuumTests = es.state.lastVacuumTests := by
  unfold pushError
  split
  · rfl
  · rw [recordCycle_lastVacuumTests]

theorem pushError_currentProgram (t : ℚ) (c : ErrorCode) (m : String) (es : EngineState) :
    (pushError t c m es).currentProgram = es.currentProgram := by
  unfold pushError
  split
  · rfl
  · rw [recordCycle_currentProgram]

theorem pushError_chamber (t : ℚ) (c : ErrorCode) (m : String) (es : EngineState) :
    (pushError t c m es).state.chamber = es.state.chamber := by
  unfold pushError
  split
  · rfl
  · rw [recordCycle_chamber]

theorem pushError_cvsp (t : ℚ) (c : ErrorCode) (m : String) (es : EngineState) :
    (pushError t c m es).currentVacuumStartPressure = es.currentVacuumStartPressure := by
  unfold pushError
  split
  · rfl
  · rw [recordCycle_cvsp]

theorem pushError_active_stays_false (t : ℚ) (c : ErrorCode) (m : String) (es : EngineState)
    (h : es.state.cycle.active = false) : (pushError t c m es).state.cycle.active = false := by
  by_cases hp : es.state.cycle.currentPhase = Phase.ERROR
  · rw [pushError_noop _ _ _ _ hp]; exact h
  · exact pushError_active_false _ _ _ _ hp

theorem syncSensors_cycle (s : SensorReading) (es : EngineState) :
    (syncSensors s es).state.cycle = es.state.cycle := rfl

theorem syncSensors_errors (s : SensorReading) (es : EngineState) :
    (syncSensors s es).state.errors = es.state.errors := rfl

theorem syncSensors_vacuumTest (s : SensorReading) (es : EngineState) :
    (syncSensors s es).state.vacuumTest = es.state.vacuumTest := rfl

theorem syncSensors_lastVacuumTests (s : SensorReading) (es : EngineState) :
    (syncSensors s es).state.lastVacuumTests = es.state.lastVacuumTests := rfl

theorem syncSensors_cvsp (s : SensorReading) (es : EngineState) :
    (syncSensors s es).currentVacuumStartPressure = es.currentVacuumStartPressure := rfl

theorem syncSensors_chamber_pressure (s : SensorReading) (es : EngineState) :
    (syncSensors s es).state.chamber.pressureMPa =
      s.chamberPressureMPa + es.state.calibrationOffsets.chamberPressureOffset := rfl

theorem validateSensors_vacuumTest (t : ℚ) (es : EngineState) :
    (validateSensors t es).state.vacuumTest = es.state.vacuumTest := by
  unfold validateSensors
  split
  · rw [pushError_vacuumTest]
  · rfl

theorem validateSensors_lastVacuumTests (t : ℚ) (es : EngineState) :
    (validateSensors t es).state.lastVacuumTests = es.state.lastVacuumTests := by
  unfold validateSensors
  split
  · rw [pushError_lastVacuumTests]
  · rfl

theorem validateSensors_chamber (t : ℚ) (es : EngineState) :
    (validateSensors t es).state.chamber = es.state.chamber := by
  unfold validateSensors
  split
  · rw [pushError_chamber]
  · rfl

theorem validateSensors_cvsp (t : ℚ) (es : EngineState) :
    (validateSensors t es).currentVacuumStartPressure = es.currentVacuumStartPressure := by
  unfold validateSensors
  split
  · rw [pushError_cvsp]
  · rfl

theorem validateSensors_active_stays_false (t : ℚ) (es : EngineState)
    (h : es.state.cycle.active = false) : (validateSensors t es).state.cycle.active = false := by
  unfold validateSensors
  split
  · exact pushError_active_stays_false _ _ _ _ h
  · exact h

theorem timerStep_inactive (d : ℚ) (es : EngineState)
    (h : es.state.cycle.active = false) : timerStep d es = es := by
  unfold timerStep
  rw [h]
  rfl

theorem timerStep_errors (d : ℚ) (es : EngineState) :
    (timerStep d es).state.errors = es.state.errors := by
  unfold timerStep
  split <;> rfl

theorem vacuumStep_errors (t d : ℚ) (es : EngineState) :
    (vacuumStep t d es).state.errors = es.state.errors := by
  unfold vacuumStep
  dsimp only
  repeat' split
  all_goals rfl

theorem setPhase_errors (p : Phase) (ts : ℚ) (es : EngineState) :
    (setPhase p ts es).state.errors = es.state.errors := by
  unfold setPhase
  split <;> rfl

theorem setPhase_lastVacuumTests (p : Phase) (ts : ℚ) (es : EngineState) :
    (setPhase p ts es).state.lastVacuumTests = es.state.lastVacuumTests := by
  unfold setPhase
  split <;> rfl

theorem phaseStep_errors (t d : ℚ) (es : EngineState) :
    (phaseStep t d es).state.errors = es.state.errors := by
  unfold phaseStep
  dsimp only
  repeat' split
  all_goals simp [recordCycle_errors, setPhase_errors]

theorem phaseStep_lastVacuumTests (t d : ℚ) (es : EngineState) :
    (phaseStep t d es).state.lastVacuumTests = es.state.lastVacuumTests := by
  unfold phaseStep
  dsimp only
  repeat' split
  all_goals simp [recordCycle_lastVacuumTests, setPhase_lastVacuumTests]

theorem pushErrorIte_errors_mono (c : Prop) [Decidable c] (t : ℚ) (cd : ErrorCode)
    (m : String) (x : EngineState) (e : ErrorEvent) (hx : e ∈ x.state.errors) :
    e ∈ (if c then pushError t cd m x else x).state.errors := by
  split
  · exact pushError_errors_mono _ _ _ _ _ hx
  · exact hx

theorem pushErrorIte_lastVacuumTests (c : Prop) [Decidable c] (t : ℚ) (cd : ErrorCode)
    (m : String) (x : EngineState) :
    (if c then pushError t cd m x else x).state.lastVacuumTests = x.state.lastVacuumTests := by
  split
  · exact pushError_lastVacuumTests _ _ _ _
  · rfl

theorem pushErrorIte_mem_inv (c : Prop) [Decidable c] (t : ℚ) (cd : ErrorCode)
    (m : String) (x : EngineState) (e : ErrorEvent)
    (h : e ∈ (if c then pushError t cd m x else x).state.errors) :
    e ∈ x.state.errors ∨ e.code = cd := by
  by_cases hc : c
  · rw [if_pos hc] at h
    exact pushError_mem_inv _ _ _ _ _ h
  · rw [if_neg hc] at h
    exact Or.inl h

theorem alarmProgramChecks_errors_mono (t : ℚ) (p : ProgramConfig) (es : EngineState)
    (e : ErrorEvent) (h : e ∈ es.state.errors) :
    e ∈ (alarmProgramChecks t p es).state.errors := by
  unfold alarmProgramChecks
  dsimp only
  apply pushErrorIte_errors_mono
  apply pushErrorIte_errors_mono
  apply pushErrorIte_errors_mono
  apply pushErrorIte_errors_mono
  apply pushErrorIte_errors_mono
  exact h

theorem alarmProgramChecks_lastVacuumTests (t : ℚ) (p : ProgramConfig) (es : EngineState) :
    (alarmProgramChecks t p es).state.lastVacuumTests = es.state.lastVacuumTests := by
  unfold alarmProgramChecks
  dsimp only
  rw [pushErrorIte_lastVacuumTests, pushErrorIte_lastVacuumTests,
    pushErrorIte_lastVacuumTests, pushErrorIte_lastVacuumTests,
    pushErrorIte_lastVacuumTests]

theorem alarmStep_errors_mono (t : ℚ) (es : EngineState) (e : ErrorEvent)
    (h : e ∈ es.state.errors) : e ∈ (alarmStep t es).state.errors := by
  unfold alarmStep
  split
  · exact h
  · dsimp only
    apply pushErrorIte_errors_mono
    split
    · apply pushErrorIte_errors_mono
      apply pushErrorIte_errors_mono
      exact h
    · apply alarmProgramChecks_errors_mono
      apply pushErrorIte_errors_mono
      apply pushErrorIte_errors_mono
      exact h

theorem alarmStep_lastVacuumTests (t : ℚ) (es : EngineState) :
    (alarmStep t es).state.lastVacuumTests = es.state.lastVacuumTests := by
  unfold alarmStep
  split
  · rfl
  · dsimp only
    rw [pushErrorIte_lastVacuumTests]
    split
    · rw [pushErrorIte_lastVacuumTests, pushErrorIte_lastVacuumTests]
    · rw [alarmProgramChecks_lastVacuumTests, pushErrorIte_lastVacuumTests,
        pushErrorIte_lastVacuumTests]

/-- C8: startCycle with a program id that resolves to no known program is a
hard synchronous failure (modelled as Except.error with the thrown message)
and therefore produces no successor state: the caller keeps the old
controller state, so nothing is modified. -/
theorem startCycle_unknown_program (t : ℚ) (programs : List ProgramConfig)
    (pid : String) (es : EngineState)
    (h : programs.find? (fun p => p.id == pid) = none) :
    startCycle t programs pid es = Except.error ("Program not found: " ++ pid) := by
  unfold startCycle
  rw [h]

/-- C8 witness: the empty program table at the concrete id P9. -/
theorem startCycle_unknown_program_witness :
    ([] : List ProgramConfig).find? (fun p => p.id == "P9") = none ∧
    startCycle 0 [] "P9" initialState = Except.error ("Program not found: " ++ "P9") :=
  ⟨rfl, startCycle_unknown_program 0 [] "P9" initialState rfl⟩

/-- C10: simulation writeActuators semantics: doorLockOn true locks and
forces the door closed; doorLockOn false unlocks and leaves the door flag
unchanged; every absent field leaves its actuator state unchanged. -/
theorem simWriteActuators_spec :
    (∀ p cmd, cmd.doorLockOn = some true →
      (simWriteActuators cmd p).doorLocked = true ∧
      (simWriteActuators cmd p).doorOpen = false) ∧
    (∀ p cmd, cmd.doorLockOn = some false →
      (simWriteActuators cmd p).doorLocked = false ∧
      (simWriteActuators cmd p).doorOpen = p.doorOpen) ∧
    (∀ p cmd, cmd.doorLockOn = none →
      (simWriteActuators cmd p).doorLocked = p.doorLocked ∧
      (simWriteActuators cmd p).doorOpen = p.doorOpen) ∧
    (∀ p cmd, cmd.heaterOn = none →
      (simWriteActuators cmd p).heaterOn = p.heaterOn) ∧
    (∀ p cmd, cmd.steamInletValveOpen = none →
      (simWriteActuators cmd p).steamInletValveOpen = p.steamInletValveOpen) ∧
    (∀ p cmd, cmd.steamExhaustValveOpen = none →
      (simWriteActuators cmd p).steamExhaustValveOpen = p.steamExhaustValveOpen) ∧
    (∀ p cmd, cmd.vacuumPumpOn = none →
      (simWriteActuators cmd p).vacuumPumpOn = p.vacuumPumpOn) ∧
    (∀ p cmd, cmd.waterPumpOn = none →
      (simWriteActuators cmd p).waterPumpOn = p.waterPumpOn) := by
  refine ⟨?_, ?_, ?_, ?_, ?_, ?_, ?_, ?_⟩ <;>
    intro p cmd h <;>
    rcases cmd with ⟨o1, o2, o3, o4, o5, o6⟩ <;>
    dsimp only at h <;>
    subst h
  · cases o1 <;> cases o2 <;> cases o3 <;> cases o4 <;> cases o5 <;>
      simp [simWriteActuators]
  · cases o1 <;> cases o2 <;> cases o3 <;> cases o4 <;> cases o5 <;>
      simp [simWriteActuators]
  · cases o1 <;> cases o2 <;> cases o3 <;> cases o4 <;> cases o5 <;>
      simp [simWriteActuators]
  · cases o2 <;> cases o3 <;> cases o4 <;> cases o5 <;> cases o6 <;>
      simp [simWriteActuators]
  · cases o1 <;> cases o3 <;> cases o4 <;> cases o5 <;> cases o6 <;>
      simp [simWriteActuators]
  · cases o1 <;> cases o2 <;> cases o4 <;> cases o5 <;> cases o6 <;>
      simp [simWriteActuators]
  · cases o1 <;> cases o2 <;> cases o3 <;> cases o5 <;> cases o6 <;>
      simp [simWriteActuators]
  · cases o1 <;> cases o2 <;> cases o3 <;> cases o4 <;> cases o6 <;>
      simp [simWriteActuators]

/-- C10 witness: each conjunct of the writeActuators specification applied
at a concrete backend state and command. -/
theorem simWriteActuators_spec_witness :
    ((simWriteActuators { doorLockOn := some true } simEx).doorLocked = true ∧
     (simWriteActuators { doorLockOn := some true } simEx).doorOpen = false) ∧
    ((simWriteActuators { doorLockOn := some false } simEx).doorLocked = false ∧
     (simWriteActuators { doorLockOn := some false } simEx).doorOpen = simEx.doorOpen) ∧
    ((simWriteActuators {} simEx).doorLocked = simEx.doorLocked ∧
     (simWriteActuators {} simEx).doorOpen = simEx.doorOpen) ∧
    (simWriteActuators {} simEx).heaterOn = simEx.heaterOn ∧
    (simWriteActuators {} simEx).steamInletValveOpen = simEx.steamInletValveOpen ∧
    (simWriteActuators {} simEx).steamExhaustValveOpen = simEx.steamExhaustValveOpen ∧
    (simWriteActuators {} simEx).vacuumPumpOn = simEx.vacuumPumpOn ∧
    (simWriteActuators {} simEx).waterPumpOn = simEx.waterPumpOn :=
  ⟨simWriteActuators_spec.1 simEx { doorLockOn := some true } rfl,
   simWriteActuators_spec.2.1 simEx { doorLockOn := some false } rfl,
   simWriteActuators_spec.2.2.1 simEx {} rfl,
   simWriteActuators_spec.2.2.2.1 simEx {} rfl,
   simWriteActuators_spec.2.2.2.2.1 simEx {} rfl,
   simWriteActuators_spec.2.2.2.2.2.1 simEx {} rfl,
   simWriteActuators_spec.2.2.2.2.2.2.1 simEx {} rfl,
   simWriteActuators_spec.2.2.2.2.2.2.2 simEx {} rfl⟩

/-- C9: powerFail then continueAfterPower on an active cycle restores the
CycleRuntime verbatim with active true and pending false; each of the three
power operations is a no-op outside its precondition. -/
theorem powerFail_continue_roundtrip :
    (∀ es msg, es.state.cycle.active = true →
      (continueAfterPower (powerFail msg es)).state.cycle = es.state.cycle ∧
      (continueAfterPower (powerFail msg es)).state.cycle.active = true ∧
      (continueAfterPower (powerFail msg es)).state.powerFailure.pending = false) ∧
    (∀ es msg, es.state.cycle.active = false → powerFail msg es = es) ∧
    (∀ es, es.state.powerFailure.pending = false → continueAfterPower es = es) ∧
    (∀ es, es.pausedCycle = none → continueAfterPower es = es) ∧
    (∀ t es, es.state.powerFailure.pending = false → abortAfterPower t es = es) := by
  refine ⟨?_, ?_, ?_, ?_, ?_⟩
  · intro es msg h
    unfold powerFail continueAfterPower
    rw [h]
    refine ⟨?_, rfl, rfl⟩
    show ({ es.state.cycle with active := true } : CycleRuntime) = es.state.cycle
    rw [← h]
  · intro es msg h
    unfold powerFail
    rw [h]
    rfl
  · intro es h
    unfold continueAfterPower
    rw [h]
  · intro es h
    unfold continueAfterPower
    rw [h]
    cases es.state.powerFailure.pending <;> rfl
  · intro t es h
    unfold abortAfterPower
    rw [h]
    rfl

/-- C9 witness: the round trip applied to the concrete running cycle esRun,
and each no-op case applied to concrete states outside the precondition. -/
theorem powerFail_continue_roundtrip_witness :
    ((continueAfterPower (powerFail (some "grid outage") esRun)).state.cycle =
        esRun.state.cycle ∧
     (continueAfterPower (powerFail (some "grid outage") esRun)).state.cycle.active = true ∧
     (continueAfterPower (powerFail (some "grid outage") esRun)).state.powerFailure.pending =
        false) ∧
    powerFail none initialState = initialState ∧
    continueAfterPower initialState = initialState ∧
    continueAfterPower esRun = esRun ∧
    abortAfterPower 5 initialState = initialState :=
  ⟨powerFail_continue_roundtrip.1 esRun (some "grid outage") (by with_unfolding_all rfl),
   powerFail_continue_roundtrip.2.1 initialState none rfl,
   powerFail_continue_roundtrip.2.2.1 initialState rfl,
   powerFail_continue_roundtrip.2.2.2.1 esRun (by with_unfolding_all rfl),
   powerFail_continue_roundtrip.2.2.2.2 5 initialState rfl⟩

/-- C3 (amended): startVacuumTest is a no-op while a cycle is active, so a
vacuum test can never be activated over a running cycle.  (The converse
direction of the original claim is refuted separately: startCycle does not
consult vacuumTest.active.) -/
theorem startVacuumTest_blocked_by_active_cycle (t stab testT : ℚ) (es : EngineState)
    (h : es.state.cycle.active = true) : startVacuumTest t stab testT es = es := by
  unfold startVacuumTest
  rw [h]
  rfl

/-- C3 witness: starting a vacuum test over the concrete running cycle esRun
changes nothing. -/
theorem startVacuumTest_blocked_witness :
    esRun.state.cycle.active = true ∧ startVacuumTest 3 300 300 esRun = esRun :=
  ⟨by with_unfolding_all rfl, startVacuumTest_blocked_by_active_cycle 3 300 300 esRun (by with_unfolding_all rfl)⟩

/-- C3 counterexample: a reachable state (nominal tick, startVacuumTest,
then startCycle with the door closed and locked) in which cycle.active and
vacuumTest.active hold simultaneously: startCycle does not check
vacuumTest.active. -/
theorem cycle_and_vacuum_both_active :
    esVac.state.vacuumTest.active = true ∧
    esBoth.state.cycle.active = true ∧
    esBoth.state.vacuumTest.active = true := by
  exact ⟨by with_unfolding_all rfl, by with_unfolding_all rfl, by with_unfolding_all rfl⟩

/-- C1 counterexample: in the reachable ERROR-phase state esErrDoorOpen the
door is open, the program id is known, yet startCycle leaves the whole state
untouched: pushError is silenced in the ERROR phase, so no DOOR_OPEN event
is appended to the error list or to the history. -/
theorem startCycle_error_phase_door_open_appends_nothing :
    esErrDoorOpen.state.cycle.currentPhase = Phase.ERROR ∧
    esErrDoorOpen.state.door.isOpen = true ∧
    ([progA].find? (fun p => p.id == "p1")).isSome = true ∧
    startCycle 1 [progA] "p1" esErrDoorOpen = Except.ok esErrDoorOpen :=
  ⟨by with_unfolding_all rfl, by with_unfolding_all rfl, by with_unfolding_all rfl,
   by with_unfolding_all rfl⟩

/-- C1 (amended): with a known program id and the door unlocked or open,
startCycle appends one DOOR_OPEN event to the active errors and to the
bounded history and leaves no active cycle, provided the controller is not
already in the ERROR phase; in the ERROR phase the call returns with the
state completely unchanged (no event is appended). -/
theorem startCycle_door_fail_spec :
    (∀ (t : ℚ) (programs : List ProgramConfig) (pid : String) (es : EngineState)
        (base : ProgramConfig),
      programs.find? (fun p => p.id == pid) = some base →
      es.state.door.locked = false ∨ es.state.door.isOpen = true →
      es.state.cycle.currentPhase ≠ Phase.ERROR →
      ∃ es' evt, startCycle t programs pid es = Except.ok es' ∧
        evt.code = ErrorCode.DOOR_OPEN ∧
        es'.state.cycle.active = false ∧
        es'.state.errors = es.state.errors ++ [evt] ∧
        es'.state.errorHistory = (evt :: es.state.errorHistory).take 100) ∧
    (∀ (t : ℚ) (programs : List ProgramConfig) (pid : String) (es : EngineState)
        (base : ProgramConfig),
      programs.find? (fun p => p.id == pid) = some base →
      es.state.door.locked = false ∨ es.state.door.isOpen = true →
      es.state.cycle.currentPhase = Phase.ERROR →
      startCycle t programs pid es = Except.ok es) := by
  constructor
  · intro t programs pid es base hfind hdoor hph
    unfold startCycle
    rw [hfind]
    dsimp only
    have hc : (!es.state.door.locked || es.state.door.isOpen) = true := by
      rcases hdoor with h | h <;> simp [h]
    rw [if_pos hc]
    refine ⟨pushError t ErrorCode.DOOR_OPEN "Дверь открыта или не заблокирована" es,
      mkErrorEvent t ErrorCode.DOOR_OPEN "Дверь открыта или не заблокирована" es,
      rfl, rfl, pushError_active_false _ _ _ _ hph,
      pushError_errors_append _ _ _ _ hph,
      pushError_errorHistory_cons _ _ _ _ hph⟩
  · intro t programs pid es base hfind hdoor hph
    unfold startCycle
    rw [hfind]
    dsimp only
    have hc : (!es.state.door.locked || es.state.door.isOpen) = true := by
      rcases hdoor with h | h <;> simp [h]
    rw [if_pos hc, pushError_noop _ _ _ _ hph]

/-- C1 witness: the amended claim applied at the initial state (door open,
unlocked, IDLE phase) and at the reachable ERROR-phase state esErrDoorOpen. -/
theorem startCycle_door_fail_spec_witness :
    (∃ es' evt, startCycle 0 [progA] "p1" initialState = Except.ok es' ∧
      evt.code = ErrorCode.DOOR_OPEN ∧
      es'.state.cycle.active = false ∧
      es'.state.errors = initialState.state.errors ++ [evt] ∧
      es'.state.errorHistory = (evt :: initialState.state.errorHistory).take 100) ∧
    startCycle 1 [progA] "p1" esErrDoorOpen = Except.ok esErrDoorOpen :=
  ⟨startCycle_door_fail_spec.1 0 [progA] "p1" initialState progA rfl (Or.inl rfl)
      (by decide),
   startCycle_door_fail_spec.2 1 [progA] "p1" esErrDoorOpen progA rfl
      (Or.inr (by with_unfolding_all rfl)) (by with_unfolding_all rfl)⟩

/-- C2 counterexample: from the reachable ERROR-phase state esErrLocked
(door closed and locked), startCycle with a known program id starts a new
cycle without any resetErrors call: the cycle becomes active in PREHEAT. -/
theorem startCycle_from_error_starts_cycle :
    esErrLocked.state.cycle.currentPhase = Phase.ERROR ∧
    (runStart 1 [progA] "p1" esErrLocked).state.cycle.active = true ∧
    (runStart 1 [progA] "p1" esErrLocked).state.cycle.currentPhase = Phase.PREHEAT :=
  ⟨by with_unfolding_all rfl, by with_unfolding_all rfl, by with_unfolding_all rfl⟩

/-- C2 (amended): the ERROR phase does not block startCycle.  While in
ERROR, a startCycle with a known program id and the door closed and locked
starts a new cycle directly (clearing the active error list); resetErrors
also exits the ERROR phase to IDLE, clearing the active list but leaving
the history untouched. -/
theorem error_phase_restart_semantics :
    (∀ (t : ℚ) (programs : List ProgramConfig) (pid : String) (es : EngineState)
        (base : ProgramConfig),
      es.state.cycle.currentPhase = Phase.ERROR →
      programs.find? (fun p => p.id == pid) = some base →
      es.state.door.locked = true →
      es.state.door.isOpen = false →
      ∃ es', startCycle t programs pid es = Except.ok es' ∧
        es'.state.cycle.active = true ∧
        es'.state.cycle.currentPhase = Phase.PREHEAT ∧
        es'.state.errors = []) ∧
    (∀ es : EngineState, es.state.cycle.currentPhase = Phase.ERROR →
      (resetErrors es).state.cycle.currentPhase = Phase.IDLE ∧
      (resetErrors es).state.cycle.active = false ∧
      (resetErrors es).state.errors = [] ∧
      (resetErrors es).state.errorHistory = es.state.errorHistory) := by
  constructor
  · intro t programs pid es base hph hfind hlock hopen
    unfold startCycle
    rw [hfind]
    dsimp only
    have hc : (!es.state.door.locked || es.state.door.isOpen) = false := by
      simp [hlock, hopen]
    rw [hc]
    exact ⟨_, rfl, rfl, rfl, rfl⟩
  · intro es hph
    unfold resetErrors
    dsimp only
    rw [if_pos hph]
    exact ⟨rfl, rfl, rfl, rfl⟩

/-- C2 witness: the amended claim applied at the reachable ERROR-phase state
esErrLocked. -/
theorem error_phase_restart_semantics_witness :
    (∃ es', startCycle 1 [progA] "p1" esErrLocked = Except.ok es' ∧
      es'.state.cycle.active = true ∧
      es'.state.cycle.currentPhase = Phase.PREHEAT ∧
      es'.state.errors = []) ∧
    ((resetErrors esErrLocked).state.cycle.currentPhase = Phase.IDLE ∧
     (resetErrors esErrLocked).state.cycle.active = false ∧
     (resetErrors esErrLocked).state.errors = [] ∧
     (resetErrors esErrLocked).state.errorHistory = esErrLocked.state.errorHistory) :=
  ⟨error_phase_restart_semantics.1 1 [progA] "p1" esErrLocked progA
      (by with_unfolding_all rfl) rfl (by with_unfolding_all rfl)
      (by with_unfolding_all rfl),
   error_phase_restart_semantics.2 esErrLocked (by with_unfolding_all rfl)⟩

/-- C5 counterexample: in the trace (nominal tick, one successful
startCycle, stopCycle, stopCycle) exactly one cycle was started and
terminated, yet two aborted CycleSummary records for the same program are
appended: stopCycle does not clear cycle.currentProgram, so the second call
records the same cycle again. -/
theorem two_summaries_for_one_cycle :
    esRun.state.lastCompletedCycles = [] ∧
    esStopTwice.state.lastCompletedCycles.map CycleSummary.result =
      [CycleResult.aborted, CycleResult.aborted] ∧
    esStopTwice.state.lastCompletedCycles.map CycleSummary.programId = ["p1", "p1"] :=
  ⟨by with_unfolding_all rfl, by with_unfolding_all rfl, by with_unfolding_all rfl⟩

theorem setPhase_cycle_currentProgram (p : Phase) (ts : ℚ) (es : EngineState) :
    (setPhase p ts es).state.cycle.currentProgram = es.state.cycle.currentProgram := by
  unfold setPhase
  split <;> rfl

theorem setPhase_lastCompletedCycles (p : Phase) (ts : ℚ) (es : EngineState) :
    (setPhase p ts es).state.lastCompletedCycles = es.state.lastCompletedCycles := by
  unfold setPhase
  split <;> rfl

theorem recordCycle_appends (t : ℚ) (r : CycleResult) (pc : Option ErrorCode)
    (es : EngineState) (q : ProgramConfig)
    (hq : es.state.cycle.currentProgram = some q) :
    (recordCycle t r pc es).state.lastCompletedCycles.length =
      min 50 (es.state.lastCompletedCycles.length + 1) := by
  unfold recordCycle
  rw [hq]
  simp [List.length_take]
  omega

theorem recordCycle_head (t : ℚ) (r : CycleResult) (pc : Option ErrorCode)
    (es : EngineState) (q : ProgramConfig)
    (hq : es.state.cycle.currentProgram = some q) :
    ∃ s, (recordCycle t r pc es).state.lastCompletedCycles.head? = some s ∧
      s.result = r := by
  unfold recordCycle
  rw [hq]
  exact ⟨_, rfl, rfl⟩

/-- The COOLING completion branch of phaseStep written out: enter COMPLETE,
deactivate, record a success summary. -/
theorem phaseStep_cooling_eq (t dt : ℚ) (es : EngineState) (p : ProgramConfig)
    (hp : es.currentProgram = some p)
    (hact : es.state.cycle.active = true)
    (hph : es.state.cycle.currentPhase = Phase.COOLING)
    (hguard : es.state.chamber.temperatureC ≤ 60 ∨ es.state.cycle.phaseElapsedSec > 40) :
    phaseStep t dt es =
      recordCycle t CycleResult.success none
        (let es1 := setPhase Phase.COMPLETE 0 es
         { es1 with state := { es1.state with cycle :=
           { es1.state.cycle with active := false } } }) := by
  unfold phaseStep
  rw [hp]
  dsimp only
  rw [if_neg (by simp [hact]), hph]
  dsimp only
  rw [if_pos hguard]

/-- The pending branch of abortAfterPower written out: clear the pending
flag and the paused slot, record an aborted POWER_ERROR summary, force
IDLE. -/
theorem abortAfterPower_eq (t : ℚ) (es : EngineState)
    (hpend : es.state.powerFailure.pending = true) :
    abortAfterPower t es =
      (let es1 :=
        { es with
          pausedCycle := none
          state := { es.state with powerFailure := { pending := false } } }
       let es2 := recordCycle t CycleResult.aborted (some ErrorCode.POWER_ERROR) es1
       { es2 with state := { es2.state with cycle :=
         { es2.state.cycle with
           active := false
           currentPhase := Phase.IDLE
           currentProgram := none } } }) := by
  unfold abortAfterPower
  rw [if_neg (by simp [hpend])]

/-- C5 (amended): a CycleSummary is appended once per terminating event
rather than once per cycle: the COOLING-to-COMPLETE completion transition
(result success), a pushError not silenced by the ERROR phase (result
error), stopCycle (result aborted) and abortAfterPower with a pending
power failure (result aborted) each append exactly one summary whenever
cycle.currentProgram is set (and none when it is null or when pushError is
silenced by the ERROR phase); since termination does not clear
cycle.currentProgram, repeated terminating events append repeated
summaries for the same cycle. -/
theorem cycle_summary_per_termination_event :
    (∀ (t : ℚ) (es : EngineState) (p : ProgramConfig),
      es.state.cycle.currentProgram = some p →
      (stopCycle t es).state.lastCompletedCycles.length =
        min 50 (es.state.lastCompletedCycles.length + 1)) ∧
    (∀ (t : ℚ) (es : EngineState), es.state.cycle.currentProgram = none →
      (stopCycle t es).state.lastCompletedCycles = es.state.lastCompletedCycles) ∧
    (∀ (t : ℚ) (c : ErrorCode) (m : String) (es : EngineState) (p : ProgramConfig),
      es.state.cycle.currentProgram = some p →
      es.state.cycle.currentPhase ≠ Phase.ERROR →
      (pushError t c m es).state.lastCompletedCycles.length =
        min 50 (es.state.lastCompletedCycles.length + 1)) ∧
    (∀ (t : ℚ) (c : ErrorCode) (m : String) (es : EngineState),
      es.state.cycle.currentPhase = Phase.ERROR → pushError t c m es = es) ∧
    (∀ (t dt : ℚ) (es : EngineState) (p q : ProgramConfig),
      es.currentProgram = some p →
      es.state.cycle.active = true →
      es.state.cycle.currentPhase = Phase.COOLING →
      es.state.chamber.temperatureC ≤ 60 ∨ es.state.cycle.phaseElapsedSec > 40 →
      es.state.cycle.currentProgram = some q →
      (phaseStep t dt es).state.lastCompletedCycles.length =
        min 50 (es.state.lastCompletedCycles.length + 1) ∧
      ∃ s, (phaseStep t dt es).state.lastCompletedCycles.head? = some s ∧
        s.result = CycleResult.success) ∧
    (∀ (t : ℚ) (es : EngineState) (q : ProgramConfig),
      es.state.powerFailure.pending = true →
      es.state.cycle.currentProgram = some q →
      (abortAfterPower t es).state.lastCompletedCycles.length =
        min 50 (es.state.lastCompletedCycles.length + 1) ∧
      ∃ s, (abortAfterPower t es).state.lastCompletedCycles.head? = some s ∧
        s.result = CycleResult.aborted) := by
  refine ⟨?_, ?_, ?_, ?_, ?_, ?_⟩
  · intro t es p hp
    unfold stopCycle recordCycle
    dsimp only
    rw [hp]
    simp [List.length_take]
    omega
  · intro t es hp
    unfold stopCycle recordCycle
    dsimp only
    rw [hp]
  · intro t c m es p hp hph
    unfold pushError
    rw [if_neg hph]
    unfold recordCycle
    dsimp only
    rw [hp]
    simp [List.length_take]
    omega
  · intro t c m es hph
    exact pushError_noop _ _ _ _ hph
  · intro t dt es p q hp hact hph hguard hq
    rw [phaseStep_cooling_eq t dt es p hp hact hph hguard]
    exact ⟨recordCycle_appends _ _ _ _ q hq, recordCycle_head _ _ _ _ q hq⟩
  · intro t es q hpend hq
    rw [abortAfterPower_eq t es hpend]
    dsimp only
    exact ⟨recordCycle_appends _ _ _ _ q hq, recordCycle_head _ _ _ _ q hq⟩

/-- C5 witness: the amended claim applied at esRun (one summary per
stopCycle or pushError), at the initial state (no program, no summary), at
the ERROR-phase state esErrLocked (silenced pushError), at the completing
COOLING state esCooling (one success summary), and after powerFail on
esRun (one aborted summary from abortAfterPower). -/
theorem cycle_summary_per_termination_event_witness :
    ((stopCycle 9 esRun).state.lastCompletedCycles.length =
      min 50 (esRun.state.lastCompletedCycles.length + 1)) ∧
    (stopCycle 9 initialState).state.lastCompletedCycles =
      initialState.state.lastCompletedCycles ∧
    ((pushError 9 ErrorCode.OVERPRESSURE "x" esRun).state.lastCompletedCycles.length =
      min 50 (esRun.state.lastCompletedCycles.length + 1)) ∧
    pushError 9 ErrorCode.OVERPRESSURE "x" esErrLocked = esErrLocked ∧
    ((phaseStep 7 1 esCooling).state.lastCompletedCycles.length =
      min 50 (esCooling.state.lastCompletedCycles.length + 1) ∧
     ∃ s, (phaseStep 7 1 esCooling).state.lastCompletedCycles.head? = some s ∧
       s.result = CycleResult.success) ∧
    ((abortAfterPower 11 (powerFail (some "x") esRun)).state.lastCompletedCycles.length =
      min 50 ((powerFail (some "x") esRun).state.lastCompletedCycles.length + 1) ∧
     ∃ s, (abortAfterPower 11 (powerFail (some "x")
        esRun)).state.lastCompletedCycles.head? = some s ∧
       s.result = CycleResult.aborted) :=
  ⟨cycle_summary_per_termination_event.1 9 esRun
      (applyOverride progA {}) (by with_unfolding_all rfl),
   cycle_summary_per_termination_event.2.1 9 initialState rfl,
   cycle_summary_per_termination_event.2.2.1 9 ErrorCode.OVERPRESSURE "x" esRun
      (applyOverride progA {}) (by with_unfolding_all rfl) (by with_unfolding_all decide),
   cycle_summary_per_termination_event.2.2.2.1 9 ErrorCode.OVERPRESSURE "x" esErrLocked
      (by with_unfolding_all rfl),
   cycle_summary_per_termination_event.2.2.2.2.1 7 1 esCooling progA progA
      rfl rfl rfl (Or.inl (by norm_num [esCooling, initialState])) rfl,
   cycle_summary_per_termination_event.2.2.2.2.2 11 (powerFail (some "x") esRun)
      (applyOverride progA {}) (by with_unfolding_all rfl) (by with_unfolding_all rfl)⟩

theorem pushErrorIte_currentProgram (c : Prop) [Decidable c] (t : ℚ) (cd : ErrorCode)
    (m : String) (x : EngineState) :
    (if c then pushError t cd m x else x).currentProgram = x.currentProgram := by
  split
  · exact pushError_currentProgram _ _ _ _
  · rfl

/-- C7 counterexample: after startCycle and stopCycle no cycle is active,
but the OVERTEMP check keys on the never-cleared closure variable
currentProgram, so a tick with chamber temperature 143 C (above
setTemp + 8 = 142) raises OVERTEMP with no active cycle. -/
theorem overtemp_raised_without_active_cycle :
    esStopped.state.cycle.active = false ∧
    esOvertemp.state.cycle.active = false ∧
    esOvertemp.state.errors.map ErrorEvent.code = [ErrorCode.OVERTEMP] :=
  ⟨by with_unfolding_all rfl, by with_unfolding_all rfl, by with_unfolding_all rfl⟩

/-- C7 (amended): the OVERTEMP alarm is guarded by the engine-internal
currentProgram variable, not by cycle.active: whenever a program is loaded
(currentProgram set), the phase is not ERROR and no earlier alarm
(overpressure, no-water) preempts it, a chamber temperature above
setTemp + 8 appends exactly one OVERTEMP event, regardless of whether a
cycle is active; and while no program has ever been loaded
(currentProgram = none) the alarm step never produces an OVERTEMP event. -/
theorem overtemp_guarded_by_program :
    (∀ (t : ℚ) (es : EngineState) (p : ProgramConfig),
      es.currentProgram = some p →
      es.state.cycle.currentPhase ≠ Phase.ERROR →
      ¬ es.state.chamber.pressureMPa > 0.35 →
      ¬ es.state.generator.waterLevelPercent < 5 →
      es.state.chamber.temperatureC > p.setTempC + 8 →
      ∃ evt, evt.code = ErrorCode.OVERTEMP ∧
        (alarmStep t es).state.errors = es.state.errors ++ [evt]) ∧
    (∀ (t : ℚ) (es : EngineState) (e : ErrorEvent),
      es.currentProgram = none →
      e ∈ (alarmStep t es).state.errors →
      e.code = ErrorCode.OVERTEMP →
      e ∈ es.state.errors) := by
  constructor
  · intro t es p hprog hph hpress hwater htemp
    unfold alarmStep
    rw [if_neg hph]
    dsimp only
    rw [if_neg hpress, if_neg hwater, hprog]
    unfold alarmProgramChecks
    dsimp only
    rw [if_pos htemp]
    have hE : (pushError t ErrorCode.OVERTEMP "Превышение температуры в камере" es).state.cycle.currentPhase
        = Phase.ERROR := pushError_phase_error _ _ _ _ hph
    have hA : (pushError t ErrorCode.OVERTEMP "Превышение температуры в камере" es).state.cycle.active
        = false := pushError_active_false _ _ _ _ hph
    rw [if_neg (by simp [hE, hA]), if_neg (by simp [hE, hA]), if_neg (by simp [hE, hA]),
      if_neg (by simp [hE, hA]), if_neg (by simp [hE, hA])]
    exact ⟨mkErrorEvent t ErrorCode.OVERTEMP "Превышение температуры в камере" es,
      rfl, pushError_errors_append _ _ _ _ hph⟩
  · intro t es e hnone he hcode
    unfold alarmStep at he
    split at he
    · exact he
    · dsimp only at he
      rw [pushErrorIte_currentProgram, pushErrorIte_currentProgram, hnone] at he
      dsimp only at he
      rcases pushErrorIte_mem_inv _ _ _ _ _ _ he with he1 | hc
      · rcases pushErrorIte_mem_inv _ _ _ _ _ _ he1 with he2 | hc
        · rcases pushErrorIte_mem_inv _ _ _ _ _ _ he2 with he3 | hc
          · exact he3
          · rw [hcode] at hc; cases hc
        · rw [hcode] at hc; cases hc
      · rw [hcode] at hc; cases hc

/-- C7 witness: the guard theorem applied at the hot idle state esHotIdle
(OVERTEMP appended with no active cycle) and at the program-free state
esNoProg (the only OVERTEMP in the output was already in the input). -/
theorem overtemp_guarded_by_program_witness :
    (∃ evt, evt.code = ErrorCode.OVERTEMP ∧
      (alarmStep 0 esHotIdle).state.errors = esHotIdle.state.errors ++ [evt]) ∧
    evtOT ∈ esNoProg.state.errors :=
  ⟨overtemp_guarded_by_program.1 0 esHotIdle progA rfl (by decide)
      (by with_unfolding_all decide) (by with_unfolding_all decide)
      (by with_unfolding_all decide),
   overtemp_guarded_by_program.2 0 esNoProg evtOT rfl
      (by with_unfolding_all decide) rfl⟩

/-- C6 counterexample: a jacket pressure reading of 1 MPa lies outside
[-0.2, 0.5], yet the tick raises no error at all: validateSensors checks
only the chamber and generator channels, never the jacket. -/
theorem jacket_pressure_not_validated :
    initialState.state.cycle.currentPhase ≠ Phase.ERROR ∧
    ((1 : ℚ) > 0.5) ∧
    esJacket.state.jacket.pressureMPa = 1 ∧
    esJacket.state.errors = [] :=
  ⟨by decide, by norm_num, by with_unfolding_all rfl, by with_unfolding_all rfl⟩

/-- C6 (amended): on every tick, if the calibrated chamber or generator
readings are invalid (temperature outside [-10, 200], pressure outside
[-0.2, 0.5], or water level outside [0, 110]) and the controller is not
already in the ERROR phase, a SENSOR_FAILURE error is raised.  (Jacket
pressure is never validated, and in this finite-valued model the
Number.isFinite clauses of the source are vacuous; the source also checks
finiteness only on the four chamber/generator channels, not on the water
level.) -/
theorem tick_sensor_failure (t dtMs : ℚ) (sensors : SensorReading) (es : EngineState)
    (hph : es.state.cycle.currentPhase ≠ Phase.ERROR)
    (hinv : sensorsInvalid (syncSensors sensors es).state = true) :
    ∃ e ∈ (tick t dtMs sensors es).state.errors, e.code = ErrorCode.SENSOR_FAILURE := by
  have hph1 : (syncSensors sensors es).state.cycle.currentPhase ≠ Phase.ERROR := by
    rw [syncSensors_cycle]; exact hph
  refine ⟨mkErrorEvent t ErrorCode.SENSOR_FAILURE "Некорректные показания датчиков"
    (syncSensors sensors es), ?_, rfl⟩
  unfold tick
  dsimp only
  apply alarmStep_errors_mono
  rw [phaseStep_errors, vacuumStep_errors, timerStep_errors]
  unfold validateSensors
  rw [if_pos hinv, pushError_errors_append _ _ _ _ hph1]
  exact List.mem_append_right _ (List.mem_singleton_self _)

/-- C6 witness: the amended claim applied to a tick with a water level
reading of 200 percent over the initial state. -/
theorem tick_sensor_failure_witness :
    initialState.state.cycle.currentPhase ≠ Phase.ERROR ∧
    sensorsInvalid
      (syncSensors { nominalSensors with waterLevelPercent := 200 } initialState).state = true ∧
    ∃ e ∈ (tick 0 1000 { nominalSensors with waterLevelPercent := 200 }
        initialState).state.errors, e.code = ErrorCode.SENSOR_FAILURE :=
  ⟨by decide, by with_unfolding_all rfl,
   tick_sensor_failure 0 1000 { nominalSensors with waterLevelPercent := 200 } initialState
     (by decide) (by with_unfolding_all rfl)⟩

/-- Core computation of the vacuum test completion branch of tick: when the
TEST sub-phase times out, the recorded result carries
leak rate = max 0 (current pressure - baseline) / (testTime / 60) and the
verdict is PASS exactly when that rate is at most 0.005 MPa/min. -/
theorem vacuumStep_test_completes (t dtSec : ℚ) (es : EngineState)
    (hact : es.state.vacuumTest.active = true)
    (hcyc : es.state.cycle.active = false)
    (hph : es.state.vacuumTest.phase = VTPhase.TEST)
    (hdone : es.state.vacuumTest.elapsedSec + dtSec ≥ es.state.vacuumTest.testTimeSec)
    (hTpos : 0 < es.state.vacuumTest.testTimeSec) :
    ∃ r : VacuumTestResult,
      (vacuumStep t dtSec es).state.lastVacuumTests.head? = some r ∧
      r.leakRateMPaPerMin =
        max 0 (es.state.chamber.pressureMPa - es.currentVacuumStartPressure) /
          (es.state.vacuumTest.testTimeSec / 60) ∧
      (r.result = VTVerdict.PASS ↔ r.leakRateMPaPerMin ≤ 0.005) := by
  have hd : es.state.vacuumTest.testTimeSec / 60 > 0 := by positivity
  unfold vacuumStep
  have hb : (es.state.vacuumTest.active && !es.state.cycle.active) = true := by
    rw [hact, hcyc]; rfl
  rw [if_pos hb]
  dsimp only
  rw [if_neg (by simp [hph]), if_pos ⟨hph, hdone⟩, if_pos hd]
  refine ⟨_, rfl, ?_, ?_⟩
  · show (max 0 ((es.state.chamber.pressureMPa - es.currentVacuumStartPressure) /
        (es.state.vacuumTest.testTimeSec / 60)) : ℚ) = _
    rw [← max_div_div_right hd.le, zero_div]
  · dsimp only
    split
    · rename_i hpass
      exact ⟨fun _ => hpass, fun _ => rfl⟩
    · rename_i hfail
      constructor
      · intro hcontra
        cases hcontra
      · intro hle
        exact absurd hle hfail

/-- C4: when the TEST sub-phase of an active vacuum test completes inside a
tick (elapsed + dt reaches the configured test duration T > 0), the
VacuumTestResult recorded at the head of lastVacuumTests has
leakRateMPaPerMin = max 0 (p1 - p0) / (T / 60), where p0 is the baseline
captured at TEST entry and p1 the calibrated chamber pressure of this tick,
and its verdict is PASS exactly when that rate is at most 0.005 MPa/min. -/
theorem vacuum_leak_rate_spec (t dtMs T p0 p1 : ℚ) (sensors : SensorReading)
    (es : EngineState)
    (hact : es.state.vacuumTest.active = true)
    (hcyc : es.state.cycle.active = false)
    (hph : es.state.vacuumTest.phase = VTPhase.TEST)
    (hT : es.state.vacuumTest.testTimeSec = T)
    (hTpos : 0 < T)
    (hdone : es.state.vacuumTest.elapsedSec + dtMs / 1000 ≥ T)
    (hp0 : es.currentVacuumStartPressure = p0)
    (hp1 : sensors.chamberPressureMPa + es.state.calibrationOffsets.chamberPressureOffset = p1) :
    ∃ r : VacuumTestResult,
      (tick t dtMs sensors es).state.lastVacuumTests.head? = some r ∧
      r.leakRateMPaPerMin = max 0 (p1 - p0) / (T / 60) ∧
      (r.result = VTVerdict.PASS ↔ max 0 (p1 - p0) / (T / 60) ≤ 0.005) := by
  have hA : (validateSensors t (syncSensors sensors es)).state.vacuumTest =
      es.state.vacuumTest := by
    rw [validateSensors_vacuumTest, syncSensors_vacuumTest]
  have hC : (validateSensors t (syncSensors sensors es)).state.cycle.active = false := by
    apply validateSensors_active_stays_false
    rw [syncSensors_cycle]; exact hcyc
  have hTm : timerStep (dtMs / 1000) (validateSensors t (syncSensors sensors es)) =
      validateSensors t (syncSensors sensors es) := timerStep_inactive _ _ hC
  have hChP : (validateSensors t (syncSensors sensors es)).state.chamber.pressureMPa = p1 := by
    rw [validateSensors_chamber, syncSensors_chamber_pressure]; exact hp1
  have hCv : (validateSensors t (syncSensors sensors es)).currentVacuumStartPressure = p0 := by
    rw [validateSensors_cvsp, syncSensors_cvsp]; exact hp0
  obtain ⟨r, hr1, hr2, hr3⟩ :=
    vacuumStep_test_completes t (dtMs / 1000) (validateSensors t (syncSensors sensors es))
      (by rw [hA]; exact hact) hC (by rw [hA]; exact hph)
      (by rw [hA, hT]; exact hdone) (by rw [hA, hT]; exact hTpos)
  rw [hA, hT, hChP, hCv] at hr2
  rw [hr2] at hr3
  refine ⟨r, ?_, hr2, hr3⟩
  unfold tick
  dsimp only
  rw [alarmStep_lastVacuumTests, phaseStep_lastVacuumTests, hTm]
  exact hr1

/-- C4 witness: a 20 s tick completes the test (290 + 20 over 300 s); the
recorded leak rate is max 0 (0.02 - 0.01) / 5 = 0.002 MPa/min, a PASS. -/
theorem vacuum_leak_rate_spec_witness :
    (0 : ℚ) < 300 ∧
    ∃ r : VacuumTestResult,
      (tick 1 20000 sensorsVT esVacTest).state.lastVacuumTests.head? = some r ∧
      r.leakRateMPaPerMin = max 0 ((1 / 50 : ℚ) - 1 / 100) / (300 / 60) ∧
      (r.result = VTVerdict.PASS ↔ max 0 ((1 / 50 : ℚ) - 1 / 100) / (300 / 60) ≤ 0.005) :=
  ⟨by norm_num,
   vacuum_leak_rate_spec 1 20000 300 (1 / 100) (1 / 50) sensorsVT esVacTest
     rfl rfl rfl rfl (by norm_num) (by norm_num [esVacTest]) rfl
     (by norm_num [sensorsVT, nominalSensors, esVacTest, initialState])⟩

